import Mathlib

/-!
Verification development for the `aliyun-dev-server-cli` repository.

The definitions below are a shallow embedding of the repository's Python
code.  Remote API calls are abstracted as explicit inputs: the pricing API
becomes a `query` function handed to the fetcher, and each resource lookup
takes the list the API would have returned.  Python exceptions become an
explicit `PyException` value and fallible functions return `Except`/`Sum`.
Source references name the file and line range each definition embeds.
-/

namespace AliyunDevServerCli

/-- Model of a Python exception as observed by this program.
`isClient` is `True` exactly for `ClientException` instances (whose
`data["Code"]` field is modelled by `code`); `typeName` is Python's
`type(e).__name__` and `message` is `str(e)`.  Python's default `==` on
exception objects is identity, and every worker slot holds a distinct
object, so membership tests on exception lists are modelled by predicate
filters below. -/
structure PyException where
  isClient : Bool
  typeName : String
  code : String
  message : String
deriving Repr, DecidableEq

/-- The `DescribePriceResponseBodyPriceInfoPrice` payload, reduced to the
only field the program reads: `trade_price`, an optional number (modelled
by `Option Rat`). -/
structure Price where
  trade_price : Option Rat
deriving Repr, DecidableEq, Inhabited

/-- The instance-type catalog record, reduced to the only field the
price-fetch pipeline branches on (`instance_type_id`); the remaining
catalog fields (cpu counts, memory, …) are carried opaquely by the real
record and only rendered for display. -/
structure InstanceTypeInfo where
  instance_type_id : String
deriving Repr, DecidableEq, Inhabited

/-- `InstanceTypeZonePrice` (spot_servers.py lines 43–47). -/
structure InstanceTypeZonePrice where
  instance_type_id : String
  zone_id : String
  price : Price
  instance_type : InstanceTypeInfo
deriving Repr, DecidableEq, Inhabited

/-- One entry of `supported_resources.supported_resource`: a status string
and the instance-type identifier in `value`. -/
structure SupportedResource where
  status : String
  value : String
deriving Repr, DecidableEq

/-- One entry of `available_resources.available_resource`. -/
structure AvailableResource where
  supported_resource : List SupportedResource
deriving Repr, DecidableEq

/-- One zone of `DescribeAvailableResource`'s response
(`available_zones.available_zone`). -/
structure AvailableZone where
  zone_id : String
  available_resource : List AvailableResource
deriving Repr, DecidableEq

/-- `get_instance_types_available_in_zone` (spot_servers.py lines 61–73):
the identifiers, within the zone's first `available_resource` entry, whose
status is exactly `"Available"`.  The source indexes `[0]` (raising if the
list is empty); `headD` with an empty default models the same access on the
data the claims exercise, where the entry exists.  The source wraps the
result in `set(...)`, used only for membership tests, so a list with
`contains` is an equivalent model. -/
def get_instance_types_available_in_zone (zone : AvailableZone) : List String :=
  (((zone.available_resource.headD ⟨[]⟩).supported_resource).filter
    (fun it => it.status == "Available")).map (fun it => it.value)

/-- The fixed ordered disk-category preference list
(spot_servers.py lines 100–110). -/
def system_disk_categories : List String :=
  ["cloud_auto", "cloud_efficiency", "cloud_essd", "cloud_essd_entry",
   "cloud_ssd", "ephemeral_ssd"]

/-- A price query: `(instance_type_id, zone_id, disk_category) ↦` trade
price or exception, abstracting `client.describe_price_async`. -/
def PriceQuery : Type := String → String → String → Except PyException Price

/-- The disk-category fallback loop inside `describe_price_async`
(spot_servers.py lines 129–154): `error = None`, then for each category try
the query; on success return it, on ANY exception store it in `error` and
continue; after the loop return `error or Exception("this should not
happen")`. -/
def describe_price_loop (query : PriceQuery) (instance_type_id zone_id : String) :
    List String → Option PyException → Sum PyException Price
  | [], err => Sum.inl (err.getD ⟨false, "Exception", "", "this should not happen"⟩)
  | c :: rest, _ =>
    match query instance_type_id zone_id c with
    | Except.ok p => Sum.inr p
    | Except.error e => describe_price_loop query instance_type_id zone_id rest (some e)

/-- `describe_price_in_thread` (spot_servers.py lines 112–171): run the
fallback loop over the fixed category list; a surviving exception is
returned as the slot's value, a price is wrapped into
`InstanceTypeZonePrice`. -/
def describe_price_in_thread (query : PriceQuery) (instance_type : InstanceTypeInfo)
    (zone_id : String) : Sum PyException InstanceTypeZonePrice :=
  match describe_price_loop query instance_type.instance_type_id zone_id
      system_disk_categories none with
  | Sum.inl e => Sum.inl e
  | Sum.inr p => Sum.inr ⟨instance_type.instance_type_id, zone_id, p, instance_type⟩

/-- The cross-join of candidate instance types against the zones that list
them as available (spot_servers.py lines 75–93): per zone, the candidates
whose identifier is in the zone's availability set, paired with the zone's
id, then flattened. -/
def instance_type_zone_pairs (zones : List AvailableZone)
    (instance_types : List InstanceTypeInfo) : List (InstanceTypeInfo × String) :=
  (zones.map (fun zone =>
    (instance_types.filter (fun it =>
      (get_instance_types_available_in_zone zone).contains it.instance_type_id)).map
      (fun it => (it, zone.zone_id)))).flatten

/-- The per-pair results in submission order (spot_servers.py lines
173–179): one thread-pool future per pair, collected by `future.result()`
in submission order. -/
def raw_results (query : PriceQuery) (zones : List AvailableZone)
    (instance_types : List InstanceTypeInfo) :
    List (Sum PyException InstanceTypeZonePrice) :=
  (instance_type_zone_pairs zones instance_types).map
    (fun pair => describe_price_in_thread query pair.1 pair.2)

/-- The membership test of `wrong_system_disk_prices`
(spot_servers.py lines 181–186): a `ClientException` whose `data["Code"]`
is the disk-category-unsupported code. -/
def isWrongSystemDisk : Sum PyException InstanceTypeZonePrice → Bool
  | Sum.inl e => e.isClient && e.code == "InvalidSystemDiskCategory.ValueNotSupported"
  | Sum.inr _ => false

/-- The filtering step `prices = [price for price in prices if price not in
wrong_system_disk_prices]` (spot_servers.py line 194).  Python's `in` falls
back to identity on exception objects and a success value never equals an
exception, so the list-membership test is exactly the `isWrongSystemDisk`
predicate. -/
def surviving_results (query : PriceQuery) (zones : List AvailableZone)
    (instance_types : List InstanceTypeInfo) :
    List (Sum PyException InstanceTypeZonePrice) :=
  (raw_results query zones instance_types).filter (fun r => !(isWrongSystemDisk r))

/-- The exception slots that survive the disk-category filter
(spot_servers.py line 196). -/
def surviving_exceptions (query : PriceQuery) (zones : List AvailableZone)
    (instance_types : List InstanceTypeInfo) : List PyException :=
  (surviving_results query zones instance_types).filterMap
    (fun r => match r with | Sum.inl e => some e | Sum.inr _ => none)

/-- The successful quotes in arrival order (the value of `prices` at
spot_servers.py line 220 when no exception survives). -/
def successful_quotes (query : PriceQuery) (zones : List AvailableZone)
    (instance_types : List InstanceTypeInfo) : List InstanceTypeZonePrice :=
  (surviving_results query zones instance_types).filterMap
    (fun r => match r with | Sum.inl _ => none | Sum.inr p => some p)

/-- The sort key `lambda p: p.price.trade_price or 0`
(spot_servers.py line 221): `None` (and `0.0`, on which `or` also yields
the second operand `0`, an equal number) maps to `0`. -/
def priceKey (p : InstanceTypeZonePrice) : Rat :=
  p.price.trade_price.getD 0

/-- Insert `x` after every element whose key is `≤` its own: one step of a
stable ascending sort. -/
def insertAsc (x : InstanceTypeZonePrice) : List InstanceTypeZonePrice →
    List InstanceTypeZonePrice
  | [] => [x]
  | y :: ys => if priceKey y ≤ priceKey x then y :: insertAsc x ys else x :: y :: ys

/-- `prices.sort(key=lambda p: p.price.trade_price or 0)`
(spot_servers.py line 221): Python's Timsort is a stable ascending sort by
the key; modelled extensionally by stable insertion sort, which computes
the same list. -/
def sortByTradePrice (l : List InstanceTypeZonePrice) : List InstanceTypeZonePrice :=
  l.foldl (fun acc x => insertAsc x acc) []

/-- The combined exception built when more than one non-expected failure
survives (spot_servers.py lines 207–213): its message enumerates each
failure as `type name: message`, newline-separated, after a count line. -/
def aggregate_exception (excs : List PyException) : PyException :=
  { isClient := false, typeName := "Exception", code := "",
    message := "Found " ++ toString excs.length ++
      " instance prices with exceptions:\n" ++
      String.intercalate "\n"
        (excs.map (fun e => e.typeName ++ ": " ++ e.message)) }

/-- The `IndexError` Python raises for `prices[0]` on an empty list
(reached from the min/max debug log at spot_servers.py lines 222–226). -/
def indexErrorExc : PyException :=
  ⟨false, "IndexError", "", "list index out of range"⟩

/-- `batch_describe_price` (spot_servers.py lines 50–229), with the zone
availability response and the pricing API as explicit inputs: build the
cross-join, run the per-pair workers, drop disk-category-unsupported
failures, then raise a single surviving exception as-is, or an aggregate
of several; otherwise sort the quotes ascending by trade price.  The
min/max debug log at lines 222–226 evaluates `prices[0]` eagerly, so an
empty surviving list raises `IndexError` instead of returning. -/
def batch_describe_price (query : PriceQuery) (zones : List AvailableZone)
    (instance_types : List InstanceTypeInfo) :
    Except PyException (List InstanceTypeZonePrice) :=
  match surviving_exceptions query zones instance_types with
  | [e] => Except.error e
  | [] =>
    match sortByTradePrice (successful_quotes query zones instance_types) with
    | [] => Except.error indexErrorExc
    | p :: rest => Except.ok (p :: rest)
  | a :: b :: rest => Except.error (aggregate_exception (a :: b :: rest))

/-- Python's `<` on `str` restricted to character lists: lexicographic
comparison of code points. -/
def charListLt : List Char → List Char → Bool
  | [], [] => false
  | [], _ :: _ => true
  | _ :: _, [] => false
  | c :: r, d :: s =>
    if c.toNat < d.toNat then true
    else if d.toNat < c.toNat then false
    else charListLt r s

/-- Python's `<` on `str`: lexicographic comparison of code points. -/
def pyStrLt (a b : String) : Bool := charListLt a.data b.data

/-- One insertion step of Python's `l.sort(key=..., reverse=True)`: the new
element `x` (arriving later in the original order) is placed before the
first element whose key is strictly smaller, so equal keys keep their
original relative order (stable descending sort). -/
def insertDescBy {α : Type} (key : α → String) (x : α) : List α → List α
  | [] => [x]
  | y :: ys => if pyStrLt (key y) (key x) then x :: y :: ys else y :: insertDescBy key x ys

/-- `l.sort(key=lambda x: str(x.creation_time), reverse=True)` as used by the
resource lookups (aliyun.py lines 227, 295, 359, 425): a stable descending
sort by a string key, modelled extensionally by stable insertion, which
computes the same list. -/
def sortDescStable {α : Type} (key : α → String) (l : List α) : List α :=
  l.foldl (fun acc x => insertDescBy key x acc) []

/-- A resource-group record, reduced to the fields the lookup reads.  The
`id` field is a `String`, so the source's `isinstance(id, str)` guard
(aliyun.py lines 112–113) is vacuous in the model. -/
structure ResourceGroup where
  id : String
  status : String
deriving Repr, DecidableEq, Inhabited

/-- `ResourceManagerClient._fetch_resource_group_id` (aliyun.py lines
76–115) with the API's candidate list as input: more than one match
raises, zero matches raises, one match is returned after a status check. -/
def fetch_resource_group_id (resource_groups : List ResourceGroup)
    (resource_group_name : String) : Except String String :=
  if 1 < resource_groups.length then
    Except.error ("Multiple resources matching the name \"" ++
      resource_group_name ++ "\" were found")
  else
    match resource_groups with
    | [] => Except.error ("Resource group \"" ++ resource_group_name ++
        "\" cannot be found")
    | g :: _ =>
      if g.status != "OK" then
        Except.error ("The status of resource group \"" ++ resource_group_name ++
          "\" is " ++ g.status ++ ", but OK is expected")
      else Except.ok g.id

/-- A VPC record, reduced to the fields the lookup reads;
`creation_time` models `str(x.creation_time)`. -/
structure Vpc where
  vpc_id : String
  creation_time : String
deriving Repr, DecidableEq, Inhabited

/-- `VPCClient.describe_matched_vpc` (aliyun.py lines 196–231) with the
API's candidate list as input: zero matches raises; more than one match
logs a warning and sorts by creation time descending; `vpcs[0]` is
returned. -/
def describe_matched_vpc (vpcs : List Vpc)
    (resource_group_id tag_text region_id : String) : Except String Vpc :=
  match vpcs with
  | [] => Except.error ("VPCs matching resource group ID " ++ resource_group_id ++
      " and tag " ++ tag_text ++ " under region ID " ++ region_id ++
      " are not found")
  | [v] => Except.ok v
  | l => Except.ok ((sortDescStable (fun v => v.creation_time) l).headD default)

/-- One VSwitch tag (`DescribeVSwitchesResponseBodyVSwitchesVSwitchTagsTag`). -/
structure VSwitchTag where
  key : String
  value : String
deriving Repr, DecidableEq

/-- A VSwitch record, reduced to the fields the lookup reads; `tags` is
`none` when the SDK object's `tags` attribute is absent (the source guards
with `it.tags.tag if it.tags else []`). -/
structure VSwitchInfo where
  v_switch_id : String
  zone_id : String
  creation_time : String
  tags : Option (List VSwitchTag)
deriving Repr, DecidableEq, Inhabited

/-- `get_tag_from_single_key_dict` (types.py lines 23–25): the first
key-value pair of the dict in insertion order (`next(iter(v.items()))`;
defined on validated single-key dicts, modelled totally with a default for
the empty case the validator excludes). -/
def get_tag_from_single_key_dict (v : List (String × String)) : String × String :=
  v.headD ("", "")

/-- `VPCClient._shall_exclude` (aliyun.py lines 300–318): true iff some tag
of the item matches both the key and the value of the configured
single-entry exclusion tag. -/
def shall_exclude (excluded_automation_tag : List (String × String))
    (tags_from_item : List VSwitchTag) : Bool :=
  let excl := get_tag_from_single_key_dict excluded_automation_tag
  tags_from_item.any (fun tag => tag.key == excl.1 && tag.value == excl.2)

/-- The per-VSwitch exclusion test applied inside `get_suitable_vswitch`
(aliyun.py lines 278–282): `_shall_exclude(it.tags.tag if it.tags else [])`. -/
def vswitch_excluded (excluded_automation_tag : List (String × String))
    (v : VSwitchInfo) : Bool :=
  shall_exclude excluded_automation_tag (v.tags.getD [])

/-- `VPCClient.get_suitable_vswitch` (aliyun.py lines 252–298) with the
VSwitch list of `describe_matched_vswitches` as input.  The source sorts by
`zone_id`, groups by it, and indexes the resulting dict with `zone_id`:
the group is the stable ascending sort restricted to a single key, i.e.
the original-order filter; a missing key raises `KeyError`.  It then drops
VSwitches matching the exclusion tag and applies the zero/one/many
resolution with a descending creation-time sort. -/
def get_suitable_vswitch (vswitches : List VSwitchInfo) (zone_id : String)
    (excluded_automation_tag : List (String × String)) : Except String VSwitchInfo :=
  let in_zone := vswitches.filter (fun v => v.zone_id == zone_id)
  if in_zone.isEmpty then Except.error ("KeyError: " ++ zone_id)
  else
    match in_zone.filter (fun v => !(vswitch_excluded excluded_automation_tag v)) with
    | [] => Except.error ("No VSwitch matching the fetched VPC under zone ID " ++
        zone_id ++ " was found")
    | [v] => Except.ok v
    | l => Except.ok ((sortDescStable (fun v => v.creation_time) l).headD default)

/-- A security-group record, reduced to the fields the lookup reads. -/
structure SecurityGroup where
  security_group_id : String
  creation_time : String
deriving Repr, DecidableEq, Inhabited

/-- `VPCClient.describe_security_group` (aliyun.py lines 320–363) with the
API's candidate list as input: the same zero/one/many resolution as the
VPC lookup. -/
def describe_security_group (security_groups : List SecurityGroup)
    (tag_text vpc_id region_id : String) : Except String SecurityGroup :=
  match security_groups with
  | [] => Except.error ("Security groups matching tag " ++ tag_text ++
      " under VPC ID " ++ vpc_id ++ " and region ID " ++ region_id ++
      " are not found")
  | [g] => Except.ok g
  | l => Except.ok ((sortDescStable (fun g => g.creation_time) l).headD default)

/-- The single-quote character of Python's `repr`, spelled via its code
point. -/
def pyQuote : String := String.singleton (Char.ofNat 39)

/-- A snapshot record, reduced to the fields the lookup reads. -/
structure Snapshot where
  snapshot_id : String
  creation_time : String
deriving Repr, DecidableEq, Inhabited

/-- `SnapshotClient.describe_latest_matched_snapshot` (aliyun.py lines
411–426) with the API's candidate list as input: zero matches raises; the
multiple-match branch only logs (at info level), and the descending
creation-time sort plus `snapshots[0]` runs unconditionally on any
non-empty list (for a singleton it returns that element). -/
def describe_latest_matched_snapshot (snapshots : List Snapshot)
    (tags_text source_disk_type region_id resource_group_id : String) :
    Except String Snapshot :=
  match snapshots with
  | [] => Except.error ("No snapshots matching tag " ++ tags_text ++
      " with source disk type " ++ pyQuote ++ source_disk_type ++ pyQuote ++
      " under region ID " ++ region_id ++ " and resource group ID " ++
      resource_group_id ++ " are found")
  | l => Except.ok ((sortDescStable (fun s => s.creation_time) l).headD default)

/-- A disk record (`DescribeDisksResponseBodyDisksDisk`), reduced to the
fields `toggle_bursting` and the disk-type filter read. -/
structure DiskDescription where
  disk_id : String
  category : String
  type : String
deriving Repr, DecidableEq

/-- The `ModifyDiskAttributeRequest` fields `toggle_bursting` fills. -/
structure ModifyDiskAttributeRequest where
  disk_ids : List String
  bursting_enabled : Bool
deriving Repr, DecidableEq

/-- `BlockStorageClient.toggle_bursting` (aliyun.py lines 446–472): filter
to `cloud_auto` disks, submit one `ModifyDiskAttributeRequest` carrying
their ids and the flag, and return `len(disk_ids)`.  The result pairs the
submitted request with the return value. -/
def toggle_bursting (disks : List DiskDescription) (enabled : Bool) :
    ModifyDiskAttributeRequest × Nat :=
  let disk_ids := (disks.filter (fun d => d.category == "cloud_auto")).map
    (fun d => d.disk_id)
  (⟨disk_ids, enabled⟩, disk_ids.length)

/-- Python's `str.strip()` as `int()` applies it: drop leading and trailing
whitespace characters. -/
def pyStrip (cs : List Char) : List Char :=
  ((cs.dropWhile Char.isWhitespace).reverse.dropWhile Char.isWhitespace).reverse

/-- The numeric value of a digit group once underscores are removed. -/
def digitCharsValue (cs : List Char) : Nat :=
  (cs.filter Char.isDigit).foldl (fun a c => 10 * a + (c.toNat - 48)) 0

/-- Python's digit-group syntax after the optional sign: non-empty, only
digits and underscores, and underscores single and strictly between
digits. -/
def validDigitGroup (cs : List Char) : Bool :=
  !cs.isEmpty
  && cs.all (fun c => c.isDigit || c == '_')
  && !(cs.headD '0' == '_')
  && !(cs.getLastD '0' == '_')
  && !((cs.zip cs.tail).any (fun p => p.1 == '_' && p.2 == '_'))

/-- Python's built-in `int(str)` on base-10 text: strip surrounding
whitespace, read an optional sign, then a digit group (underscore
separators allowed between digits); anything else raises `ValueError`,
modelled by `none`. -/
def parsePyInt (s : String) : Option Int :=
  let cs := pyStrip s.data
  let signAndDigits : Int × List Char :=
    match cs with
    | '+' :: rest => (1, rest)
    | '-' :: rest => (-1, rest)
    | _ => (1, cs)
  if validDigitGroup signAndDigits.2 then
    some (signAndDigits.1 * (digitCharsValue signAndDigits.2 : Int))
  else none

/-- `validate_selection` inside `SpotServerSelector.select_server`
(spot_servers.py lines 301–312): `int(v)` failing raises a validation
error ("input must be an integer"); a parsed `value` with `value <= -1 or
value >= len(servers)` raises the range error; otherwise the input is
accepted. -/
def validate_selection (num_servers : Nat) (v : String) : Bool :=
  match parsePyInt v with
  | none => false
  | some value =>
    if value ≤ -1 ∨ (num_servers : Int) ≤ value then false
    else true

/-- `SpotServerSelector.select_server` (spot_servers.py lines 300–328):
the interactive prompt re-asks until `validate_selection` accepts one
line; the answer is that line converted by `int(...)`.  Modelled over the
stream of lines the operator types: `none` means no line was ever
accepted (the real prompt would still be waiting for input). -/
def select_server (num_servers : Nat) (inputs : List String) : Option Int :=
  (inputs.find? (fun s => validate_selection num_servers s)).map
    (fun s => (parsePyInt s).getD 0)

/-- Python's `repr` of the key list `list(v.keys())` as interpolated into
the validator's message. -/
def pyKeyListRepr (keys : List String) : String :=
  "[" ++ String.intercalate ", " (keys.map (fun k => pyQuote ++ k ++ pyQuote)) ++ "]"

/-- `validate_single_key_dict` (types.py lines 11–17, duplicated verbatim
at settings.py lines 39–43).  A Python `dict[str, str]` is modelled as its
item list in insertion order (keys distinct), so `len(v)` is the item
count; the raised `ValueError` becomes `Except.error` carrying the same
message. -/
def validate_single_key_dict (v : List (String × String)) :
    Except String (List (String × String)) :=
  if v.length ≠ 1 then
    Except.error ("Dictionary must contain exactly one key-value pair, got " ++
      toString v.length ++ " keys: " ++ pyKeyListRepr (v.map Prod.fst))
  else Except.ok v

/-! ### Concrete fixtures for witnesses and counterexamples -/

/-- A candidate instance type. -/
def itA : InstanceTypeInfo := ⟨"ecs.g7.large"⟩

/-- A zone whose availability set contains `itA`. -/
def zoneA : AvailableZone :=
  ⟨"cn-hangzhou-a", [⟨[⟨"Available", "ecs.g7.large"⟩]⟩]⟩

/-- A zone whose availability set does not contain `itA`. -/
def zoneB : AvailableZone :=
  ⟨"cn-hangzhou-b", [⟨[⟨"Available", "ecs.other"⟩]⟩]⟩

/-- A second zone whose availability set contains `itA`. -/
def zoneC : AvailableZone :=
  ⟨"cn-hangzhou-c", [⟨[⟨"Available", "ecs.g7.large"⟩]⟩]⟩

/-- The expected disk-category-unsupported rejection. -/
def diskCatErr : PyException :=
  ⟨true, "ClientException", "InvalidSystemDiskCategory.ValueNotSupported",
    "disk category not supported"⟩

/-- A non-expected failure (not a disk-category rejection). -/
def throttleErr : PyException :=
  ⟨false, "TeaException", "Throttling", "rate limited"⟩

/-- A second, distinct non-expected failure. -/
def valueErr : PyException :=
  ⟨false, "ValueError", "", "bad response"⟩

/-- A pricing API that rejects the first disk category with a throttling
error and accepts the second. -/
def qThrottleThenOk : PriceQuery := fun _ _ c =>
  if c == "cloud_auto" then Except.error throttleErr else Except.ok ⟨some 1⟩

/-- A pricing API that rejects every request with the
disk-category-unsupported error. -/
def qAllDiskCat : PriceQuery := fun _ _ _ => Except.error diskCatErr

/-- A pricing API that fails (with a non-expected error) only in zone
`cn-hangzhou-a` and succeeds elsewhere. -/
def qOneFailure : PriceQuery := fun _ z _ =>
  if z == "cn-hangzhou-a" then Except.error throttleErr else Except.ok ⟨some 2⟩

/-- A pricing API that fails with two different non-expected errors. -/
def qTwoFailures : PriceQuery := fun _ z _ =>
  if z == "cn-hangzhou-a" then Except.error throttleErr else Except.error valueErr

/-- A pricing API that succeeds everywhere, with a higher price in zone
`cn-hangzhou-a`. -/
def qPricesOk : PriceQuery := fun _ z _ =>
  if z == "cn-hangzhou-a" then Except.ok ⟨some 3⟩ else Except.ok ⟨some 2⟩

/-- A resource group in `OK` status. -/
def rgA : ResourceGroup := ⟨"rg-aaa", "OK"⟩

/-- A second resource group in `OK` status. -/
def rgB : ResourceGroup := ⟨"rg-bbb", "OK"⟩

/-- An older VPC. -/
def vpcOld : Vpc := ⟨"vpc-old", "2024-01-01T00:00Z"⟩

/-- A more recently created VPC. -/
def vpcNew : Vpc := ⟨"vpc-new", "2024-06-01T00:00Z"⟩

/-- The single-entry exclusion tag used by the fixtures. -/
def exclTag : List (String × String) :=
  [("nysparis:nysparis:automation-usage", "none")]

/-- A VSwitch with no tag object at all. -/
def vswPlain : VSwitchInfo := ⟨"vsw-plain", "cn-hangzhou-a", "2024-01-01T00:00Z", none⟩

/-- A VSwitch carrying the exclusion tag. -/
def vswTagged : VSwitchInfo :=
  ⟨"vsw-tagged", "cn-hangzhou-a", "2024-02-01T00:00Z",
    some [⟨"nysparis:nysparis:automation-usage", "none"⟩]⟩

/-- An older security group. -/
def sgOld : SecurityGroup := ⟨"sg-old", "2024-01-01T00:00Z"⟩

/-- A more recently created security group. -/
def sgNew : SecurityGroup := ⟨"sg-new", "2024-05-01T00:00Z"⟩

/-- An older snapshot. -/
def snapOld : Snapshot := ⟨"snap-old", "2024-01-01T00:00Z"⟩

/-- A more recently created snapshot. -/
def snapNew : Snapshot := ⟨"snap-new", "2024-07-01T00:00Z"⟩

/-! ### Order facts about the string comparison used by the recency sorts -/

theorem charListLt_irrefl (a : List Char) : charListLt a a = false := by
  induction a with
  | nil => rfl
  | cons c r ih => simp [charListLt, ih]

theorem charListLt_trans (a b c : List Char) (hab : charListLt a b = true)
    (hbc : charListLt b c = true) : charListLt a c = true := by
  induction a generalizing b c with
  | nil =>
    cases b with
    | nil => simp [charListLt] at hab
    | cons y b' =>
      cases c with
      | nil => simp [charListLt] at hbc
      | cons z c' => simp [charListLt]
  | cons x a' ih =>
    cases b with
    | nil => simp [charListLt] at hab
    | cons y b' =>
      cases c with
      | nil => simp [charListLt] at hbc
      | cons z c' =>
        simp only [charListLt] at hab hbc ⊢
        by_cases hxy : x.toNat < y.toNat
        · by_cases hyz : y.toNat < z.toNat
          · simp [Nat.lt_trans hxy hyz]
          · by_cases hzy : z.toNat < y.toNat
            · simp [hyz, hzy] at hbc
            · have hyz' : y.toNat = z.toNat := by omega
              simp [hyz' ▸ hxy]
        · by_cases hyx : y.toNat < x.toNat
          · simp [hxy, hyx] at hab
          · have hxy' : x.toNat = y.toNat := by omega
            by_cases hyz : y.toNat < z.toNat
            · simp [hxy' ▸ hyz]
            · by_cases hzy : z.toNat < y.toNat
              · simp [hyz, hzy] at hbc
              · have hyz' : y.toNat = z.toNat := by omega
                simp [hxy, hyx] at hab
                simp [hyz, hzy] at hbc
                have hxz : ¬ x.toNat < z.toNat := by omega
                have hzx : ¬ z.toNat < x.toNat := by omega
                simp [hxz, hzx, ih b' c' hab hbc]

theorem charListLt_asymm (a b : List Char) (h : charListLt a b = true) :
    charListLt b a = false := by
  by_contra hba
  have hba' : charListLt b a = true := by
    cases hv : charListLt b a with
    | false => exact absurd hv hba
    | true => rfl
  have := charListLt_trans a b a h hba'
  simp [charListLt_irrefl] at this

theorem pyStrLt_irrefl (a : String) : pyStrLt a a = false :=
  charListLt_irrefl a.data

theorem pyStrLt_trans (a b c : String) (hab : pyStrLt a b = true)
    (hbc : pyStrLt b c = true) : pyStrLt a c = true :=
  charListLt_trans a.data b.data c.data hab hbc

theorem pyStrLt_asymm (a b : String) (h : pyStrLt a b = true) :
    pyStrLt b a = false :=
  charListLt_asymm a.data b.data h

/-! ### The descending stable sort used by the recency tie-breaks -/

theorem mem_insertDescBy {α : Type} (key : α → String) (x a : α) (l : List α) :
    a ∈ insertDescBy key x l ↔ a = x ∨ a ∈ l := by
  induction l with
  | nil => simp [insertDescBy]
  | cons y ys ih =>
    simp only [insertDescBy]
    by_cases h : pyStrLt (key y) (key x) = true
    · simp only [h, if_true, List.mem_cons]
    · simp only [Bool.not_eq_true] at h
      simp only [h, Bool.false_eq_true, if_false, List.mem_cons, ih]
      tauto

theorem pairwise_insertDescBy {α : Type} (key : α → String) (x : α) (l : List α)
    (hl : l.Pairwise (fun a b => pyStrLt (key a) (key b) = false)) :
    (insertDescBy key x l).Pairwise (fun a b => pyStrLt (key a) (key b) = false) := by
  induction l with
  | nil => simp [insertDescBy]
  | cons y ys ih =>
    rw [List.pairwise_cons] at hl
    obtain ⟨hy, hys⟩ := hl
    simp only [insertDescBy]
    by_cases h : pyStrLt (key y) (key x) = true
    · simp only [h, if_true]
      rw [List.pairwise_cons]
      constructor
      · intro z hz
        rw [List.mem_cons] at hz
        rcases hz with hz | hz
        · exact hz ▸ pyStrLt_asymm _ _ h
        · by_contra hxz
          have hxz' : pyStrLt (key x) (key z) = true := by
            cases hv : pyStrLt (key x) (key z) with
            | false => exact absurd hv hxz
            | true => rfl
          have := pyStrLt_trans _ _ _ h hxz'
          rw [hy z hz] at this
          exact Bool.false_ne_true this
      · rw [List.pairwise_cons]
        exact ⟨hy, hys⟩
    · simp only [Bool.not_eq_true] at h
      simp only [h, Bool.false_eq_true, if_false]
      rw [List.pairwise_cons]
      constructor
      · intro z hz
        rw [mem_insertDescBy] at hz
        rcases hz with hz | hz
        · exact hz ▸ h
        · exact hy z hz
      · exact ih hys

theorem pairwise_sortDescStable_aux {α : Type} (key : α → String) (l acc : List α)
    (hacc : acc.Pairwise (fun a b => pyStrLt (key a) (key b) = false)) :
    (l.foldl (fun acc x => insertDescBy key x acc) acc).Pairwise
      (fun a b => pyStrLt (key a) (key b) = false) := by
  induction l generalizing acc with
  | nil => exact hacc
  | cons x xs ih => exact ih _ (pairwise_insertDescBy key x acc hacc)

theorem pairwise_sortDescStable {α : Type} (key : α → String) (l : List α) :
    (sortDescStable key l).Pairwise (fun a b => pyStrLt (key a) (key b) = false) :=
  pairwise_sortDescStable_aux key l [] (List.Pairwise.nil)

theorem mem_sortDescStable_aux {α : Type} (key : α → String) (l acc : List α) (a : α) :
    a ∈ l.foldl (fun acc x => insertDescBy key x acc) acc ↔ a ∈ acc ∨ a ∈ l := by
  induction l generalizing acc with
  | nil => simp
  | cons x xs ih =>
    simp only [List.foldl_cons, ih, mem_insertDescBy, List.mem_cons]
    tauto

theorem mem_sortDescStable {α : Type} (key : α → String) (l : List α) (a : α) :
    a ∈ sortDescStable key l ↔ a ∈ l := by
  rw [sortDescStable, mem_sortDescStable_aux]
  simp

theorem sortDescStable_headD_max {α : Type} [Inhabited α] (key : α → String)
    (l : List α) (hne : l ≠ []) :
    (sortDescStable key l).headD default ∈ l ∧
      ∀ y ∈ l, pyStrLt (key ((sortDescStable key l).headD default)) (key y) = false := by
  obtain ⟨x, xs, hx⟩ := List.exists_cons_of_ne_nil hne
  have hxmem : x ∈ sortDescStable key l := by
    rw [mem_sortDescStable, hx]
    exact List.mem_cons_self x xs
  cases hs : sortDescStable key l with
  | nil => rw [hs] at hxmem; exact absurd hxmem (List.not_mem_nil x)
  | cons m t =>
    have hsorted := pairwise_sortDescStable key l
    rw [hs, List.pairwise_cons] at hsorted
    constructor
    · have : m ∈ sortDescStable key l := by rw [hs]; exact List.mem_cons_self m t
      rw [mem_sortDescStable] at this
      simpa using this
    · intro y hy
      have hy' : y ∈ sortDescStable key l := by rw [mem_sortDescStable]; exact hy
      rw [hs, List.mem_cons] at hy'
      rcases hy' with hy' | hy'
      · simpa [hy'] using pyStrLt_irrefl (key m)
      · simpa using hsorted.1 y hy'

/-! ### The ascending stable sort of the price list -/

theorem mem_insertAsc (x a : InstanceTypeZonePrice) (l : List InstanceTypeZonePrice) :
    a ∈ insertAsc x l ↔ a = x ∨ a ∈ l := by
  induction l with
  | nil => simp [insertAsc]
  | cons y ys ih =>
    simp only [insertAsc]
    by_cases h : priceKey y ≤ priceKey x
    · simp only [h, if_true, List.mem_cons, ih]
      tauto
    · simp only [h, if_false, List.mem_cons]

theorem pairwise_insertAsc (x : InstanceTypeZonePrice) (l : List InstanceTypeZonePrice)
    (hl : l.Pairwise (fun a b => priceKey a ≤ priceKey b)) :
    (insertAsc x l).Pairwise (fun a b => priceKey a ≤ priceKey b) := by
  induction l with
  | nil => simp [insertAsc]
  | cons y ys ih =>
    rw [List.pairwise_cons] at hl
    obtain ⟨hy, hys⟩ := hl
    simp only [insertAsc]
    by_cases h : priceKey y ≤ priceKey x
    · simp only [h, if_true]
      rw [List.pairwise_cons]
      refine ⟨?_, ih hys⟩
      intro z hz
      rw [mem_insertAsc] at hz
      rcases hz with hz | hz
      · exact hz ▸ h
      · exact hy z hz
    · simp only [h, if_false]
      rw [List.pairwise_cons]
      refine ⟨?_, List.pairwise_cons.mpr ⟨hy, hys⟩⟩
      intro z hz
      rw [List.mem_cons] at hz
      rcases hz with hz | hz
      · exact hz ▸ le_of_not_le h
      · exact le_trans (le_of_not_le h) (hy z hz)

theorem pairwise_sortByTradePrice_aux (l acc : List InstanceTypeZonePrice)
    (hacc : acc.Pairwise (fun a b => priceKey a ≤ priceKey b)) :
    (l.foldl (fun acc x => insertAsc x acc) acc).Pairwise
      (fun a b => priceKey a ≤ priceKey b) := by
  induction l generalizing acc with
  | nil => exact hacc
  | cons x xs ih => exact ih _ (pairwise_insertAsc x acc hacc)

theorem pairwise_sortByTradePrice (l : List InstanceTypeZonePrice) :
    (sortByTradePrice l).Pairwise (fun a b => priceKey a ≤ priceKey b) :=
  pairwise_sortByTradePrice_aux l [] List.Pairwise.nil

theorem mem_sortByTradePrice_aux (l acc : List InstanceTypeZonePrice)
    (a : InstanceTypeZonePrice) :
    a ∈ l.foldl (fun acc x => insertAsc x acc) acc ↔ a ∈ acc ∨ a ∈ l := by
  induction l generalizing acc with
  | nil => simp
  | cons x xs ih =>
    simp only [List.foldl_cons, ih, mem_insertAsc, List.mem_cons]
    tauto

theorem mem_sortByTradePrice (l : List InstanceTypeZonePrice) (a : InstanceTypeZonePrice) :
    a ∈ sortByTradePrice l ↔ a ∈ l := by
  rw [sortByTradePrice, mem_sortByTradePrice_aux]
  simp

theorem filter_insertAsc (v : Rat) (x : InstanceTypeZonePrice)
    (l : List InstanceTypeZonePrice)
    (hl : l.Pairwise (fun a b => priceKey a ≤ priceKey b)) :
    (insertAsc x l).filter (fun p => priceKey p == v) =
      l.filter (fun p => priceKey p == v) ++
        (if priceKey x == v then [x] else []) := by
  induction l with
  | nil =>
    simp only [insertAsc, List.filter_cons, List.filter_nil, List.nil_append]
  | cons y ys ih =>
    rw [List.pairwise_cons] at hl
    obtain ⟨hy, hys⟩ := hl
    simp only [insertAsc]
    by_cases h : priceKey y ≤ priceKey x
    · simp only [h, if_true, List.filter_cons]
      by_cases hyv : priceKey y == v
      · simp [hyv, ih hys]
      · simp [hyv, ih hys]
    · simp only [h, if_false]
      by_cases hx : priceKey x == v
      · have hxv : priceKey x = v := by simpa using hx
        have hnil : (y :: ys).filter (fun p => priceKey p == v) = [] := by
          rw [List.filter_eq_nil_iff]
          intro z hz
          have hyz : priceKey y ≤ priceKey z := by
            rw [List.mem_cons] at hz
            rcases hz with hz | hz
            · exact hz ▸ le_refl _
            · exact hy z hz
          have hlt : priceKey x < priceKey y := lt_of_not_le h
          simp only [beq_iff_eq]
          intro hzv
          rw [hzv, ← hxv] at hyz
          exact absurd (lt_of_lt_of_le hlt hyz) (lt_irrefl _)
        rw [List.filter_cons, if_pos hx, hnil]
        simp [hx]
      · rw [List.filter_cons, if_neg hx]
        simp [hx]

theorem filter_sortByTradePrice_aux (v : Rat) (l acc : List InstanceTypeZonePrice)
    (hacc : acc.Pairwise (fun a b => priceKey a ≤ priceKey b)) :
    (l.foldl (fun acc x => insertAsc x acc) acc).filter (fun p => priceKey p == v) =
      acc.filter (fun p => priceKey p == v) ++ l.filter (fun p => priceKey p == v) := by
  induction l generalizing acc with
  | nil => simp
  | cons x xs ih =>
    simp only [List.foldl_cons]
    rw [ih _ (pairwise_insertAsc x acc hacc), filter_insertAsc v x acc hacc]
    simp only [List.filter_cons]
    by_cases hx : priceKey x == v
    · simp [hx]
    · simp [hx]

theorem filter_sortByTradePrice (v : Rat) (l : List InstanceTypeZonePrice) :
    (sortByTradePrice l).filter (fun p => priceKey p == v) =
      l.filter (fun p => priceKey p == v) := by
  rw [sortByTradePrice, filter_sortByTradePrice_aux v l [] List.Pairwise.nil]
  simp

/-! ### Inversion facts about the fetcher -/

theorem describe_price_in_thread_inr (query : PriceQuery) (it : InstanceTypeInfo)
    (zid : String) (quote : InstanceTypeZonePrice)
    (h : describe_price_in_thread query it zid = Sum.inr quote) :
    quote.instance_type_id = it.instance_type_id ∧ quote.zone_id = zid := by
  unfold describe_price_in_thread at h
  split at h
  · exact absurd h (by simp)
  · cases h
    exact ⟨rfl, rfl⟩

theorem batch_ok_inv (query : PriceQuery) (zones : List AvailableZone)
    (its : List InstanceTypeInfo) (out : List InstanceTypeZonePrice)
    (h : batch_describe_price query zones its = Except.ok out) :
    out = sortByTradePrice (successful_quotes query zones its) := by
  unfold batch_describe_price at h
  split at h
  · exact absurd h (by simp)
  · split at h
    · exact absurd h (by simp)
    · rename_i heq
      cases h
      exact heq.symm
  · exact absurd h (by simp)

theorem pairs_availability (zones : List AvailableZone)
    (its : List InstanceTypeInfo) (pr : InstanceTypeInfo × String)
    (hpr : pr ∈ instance_type_zone_pairs zones its) :
    ∃ z ∈ zones, pr.2 = z.zone_id ∧
      pr.1.instance_type_id ∈ get_instance_types_available_in_zone z := by
  unfold instance_type_zone_pairs at hpr
  rw [List.mem_flatten] at hpr
  obtain ⟨grp, hgrp, hprg⟩ := hpr
  rw [List.mem_map] at hgrp
  obtain ⟨z, hz, hzeq⟩ := hgrp
  subst hzeq
  rw [List.mem_map] at hprg
  obtain ⟨it, hit, hiteq⟩ := hprg
  rw [List.mem_filter] at hit
  refine ⟨z, hz, ?_, ?_⟩
  · rw [← hiteq]
  · rw [← hiteq]
    exact List.elem_iff.mp hit.2

/-! ### The claims -/

/-- C7: the selector's input validation accepts a textual input iff it
parses as an integer `i` with `0 ≤ i ≤ n - 1`; the selection returned is
always a valid index; after any run of rejected inputs the first accepted
input's value is returned, so an invalid index is never returned. -/
theorem claim7_selector_validation (n : Nat) (s : String) (inputs prev : List String)
    (i : Int) :
    (validate_selection n s = true ↔
      ∃ j : Int, parsePyInt s = some j ∧ 0 ≤ j ∧ j ≤ (n : Int) - 1) ∧
    (select_server n inputs = some i → 0 ≤ i ∧ i < (n : Int)) ∧
    ((∀ p ∈ prev, validate_selection n p = false) → validate_selection n s = true →
      parsePyInt s = some i → select_server n (prev ++ [s]) = some i) := by
  refine ⟨?_, ?_, ?_⟩
  · unfold validate_selection
    cases hp : parsePyInt s with
    | none => simp
    | some value =>
      by_cases hv : value ≤ -1 ∨ (n : Int) ≤ value
      · simp only [hv, if_true]
        constructor
        · intro hfalse
          exact absurd hfalse (by simp)
        · rintro ⟨j, hj, hj0, hjn⟩
          cases hj
          omega
      · simp only [hv, if_false]
        refine ⟨fun _ => ⟨value, rfl, by omega, by omega⟩, fun _ => by trivial⟩
  · intro h
    unfold select_server at h
    cases hf : List.find? (fun s => validate_selection n s) inputs with
    | none => rw [hf] at h; exact absurd h (by simp)
    | some s₀ =>
      rw [hf] at h
      have hval := List.find?_some hf
      unfold validate_selection at hval
      cases hp : parsePyInt s₀ with
      | none => rw [hp] at hval; exact absurd hval (by simp)
      | some value =>
        rw [hp] at hval
        by_cases hv : value ≤ -1 ∨ (n : Int) ≤ value
        · simp [hv] at hval
        · simp [hp] at h
          omega
  · intro hprev hs hp
    unfold select_server
    rw [List.find?_append]
    have hnone : List.find? (fun s => validate_selection n s) prev = none := by
      rw [List.find?_eq_none]
      intro x hx
      simp [hprev x hx]
    rw [hnone, Option.none_or]
    simp [List.find?, hs, hp]

/-- C7 witness: against a 5-element list, the inputs "abc" and "5" are
rejected and "2" is accepted, returning index 2. -/
theorem claim7_witness : select_server 5 ["abc", "5", "2"] = some 2 :=
  (claim7_selector_validation 5 "2" [] ["abc", "5"] 2).2.2 (by decide) (by decide)
    (by decide)

/-- C8: the configuration tag validator accepts a dictionary iff it has
exactly one key, returning it unchanged; otherwise it fails with a message
reporting the actual key count. -/
theorem claim8_single_key_validator (v : List (String × String)) :
    (validate_single_key_dict v = Except.ok v ↔ v.length = 1) ∧
    (v.length ≠ 1 →
      validate_single_key_dict v = Except.error
        ("Dictionary must contain exactly one key-value pair, got " ++
          toString v.length ++ " keys: " ++ pyKeyListRepr (v.map Prod.fst))) := by
  unfold validate_single_key_dict
  by_cases h : v.length = 1
  · simp [h]
  · simp [h]

/-- C8 witness: a 1-key dictionary passes and round-trips unchanged; the
empty dictionary fails with the message reporting 0 keys. -/
theorem claim8_witness :
    validate_single_key_dict [("k", "v")] = Except.ok [("k", "v")] ∧
    validate_single_key_dict ([] : List (String × String)) = Except.error
      ("Dictionary must contain exactly one key-value pair, got 0 keys: " ++
        pyKeyListRepr []) :=
  ⟨(claim8_single_key_validator [("k", "v")]).1.mpr (by decide),
   (claim8_single_key_validator []).2 (by decide)⟩

/-- C9: `toggle_bursting` submits the modification exactly for the
`cloud_auto` disks and returns their count; the count does not depend on
the enabled flag nor on the disks' type field, and is 0 when no disk has
category `cloud_auto`. -/
theorem claim9_toggle_bursting (disks : List DiskDescription) (enabled : Bool) :
    (toggle_bursting disks enabled).1.disk_ids =
      (disks.filter (fun d => d.category == "cloud_auto")).map (fun d => d.disk_id) ∧
    (toggle_bursting disks enabled).2 =
      (disks.filter (fun d => d.category == "cloud_auto")).length ∧
    (toggle_bursting disks true).2 = (toggle_bursting disks false).2 ∧
    (∀ f : DiskDescription → String,
      (toggle_bursting (disks.map (fun d => { d with type := f d })) enabled).2 =
        (toggle_bursting disks enabled).2) ∧
    ((∀ d ∈ disks, d.category ≠ "cloud_auto") →
      (toggle_bursting disks enabled).2 = 0) := by
  refine ⟨rfl, by simp [toggle_bursting], by simp [toggle_bursting], ?_, ?_⟩
  · intro f
    simp only [toggle_bursting, List.length_map]
    induction disks with
    | nil => rfl
    | cons d ds ih =>
      simp only [List.map_cons, List.filter_cons]
      by_cases hc : d.category == "cloud_auto"
      · simp [hc, ih]
      · simp [hc, ih]
  · intro hnone
    simp only [toggle_bursting, List.length_map]
    rw [List.length_eq_zero, List.filter_eq_nil_iff]
    intro d hd
    simp [hnone d hd]

/-- C9 witness: a list with no `cloud_auto` disk yields a return value of
0. -/
theorem claim9_witness :
    (toggle_bursting [⟨"d-essd", "cloud_essd", "data"⟩] true).2 = 0 :=
  (claim9_toggle_bursting [⟨"d-essd", "cloud_essd", "data"⟩] true).2.2.2.2 (by decide)

/-- C10: a VSwitch with a missing or empty tag list is never excluded; a
VSwitch (or a raw tag list) is excluded iff some tag matches both the key
and the value of the configured single-entry exclusion tag. -/
theorem claim10_exclusion_tag (excl : List (String × String)) (v : VSwitchInfo)
    (tags : List VSwitchTag) :
    (v.tags = none → vswitch_excluded excl v = false) ∧
    (v.tags = some [] → vswitch_excluded excl v = false) ∧
    (vswitch_excluded excl v = true ↔
      ∃ t ∈ v.tags.getD [], t.key = (get_tag_from_single_key_dict excl).1 ∧
        t.value = (get_tag_from_single_key_dict excl).2) ∧
    (shall_exclude excl tags = true ↔
      ∃ t ∈ tags, t.key = (get_tag_from_single_key_dict excl).1 ∧
        t.value = (get_tag_from_single_key_dict excl).2) := by
  have hgen : ∀ ts : List VSwitchTag, shall_exclude excl ts = true ↔
      ∃ t ∈ ts, t.key = (get_tag_from_single_key_dict excl).1 ∧
        t.value = (get_tag_from_single_key_dict excl).2 := by
    intro ts
    unfold shall_exclude
    rw [List.any_eq_true]
    constructor
    · rintro ⟨t, ht, hp⟩
      simp only [Bool.and_eq_true, beq_iff_eq] at hp
      exact ⟨t, ht, hp⟩
    · rintro ⟨t, ht, hk, hv⟩
      exact ⟨t, ht, by simp [hk, hv]⟩
  refine ⟨?_, ?_, ?_, hgen tags⟩
  · intro hv
    unfold vswitch_excluded
    rw [hv]
    rfl
  · intro hv
    unfold vswitch_excluded
    rw [hv]
    rfl
  · unfold vswitch_excluded
    exact hgen _

/-- C10 witness: the untagged VSwitch is kept; the VSwitch carrying the
exclusion tag is excluded. -/
theorem claim10_witness :
    vswitch_excluded exclTag vswPlain = false ∧
    vswitch_excluded exclTag vswTagged = true :=
  ⟨(claim10_exclusion_tag exclTag vswPlain []).1 rfl,
   (claim10_exclusion_tag exclTag vswTagged []).2.2.1.mpr
     ⟨⟨"nysparis:nysparis:automation-usage", "none"⟩, by decide, by decide, by decide⟩⟩

/-- C6 counterexample: the resource-group lookup given two matching
candidates raises an error instead of resolving the tie by returning the
most recently created one. -/
theorem claim6_counterexample :
    fetch_resource_group_id [rgA, rgB] "dev-resource-group" =
      Except.error
        "Multiple resources matching the name \"dev-resource-group\" were found" ∧
    fetch_resource_group_id [rgA, rgB] "dev-resource-group" ≠ Except.ok rgA.id ∧
    fetch_resource_group_id [rgA, rgB] "dev-resource-group" ≠ Except.ok rgB.id := by
  refine ⟨rfl, ?_, ?_⟩ <;>
    · intro h
      rw [show fetch_resource_group_id [rgA, rgB] "dev-resource-group" = Except.error
          "Multiple resources matching the name \"dev-resource-group\" were found"
        from rfl] at h
      exact Except.noConfusion h

/-- C6 (amended): the VPC, VSwitch, security-group and snapshot lookups
follow the zero-found-fails / one-found-returned /
multiple-found-most-recent-wins state machine (the returned candidate's
creation time is not exceeded by any other candidate's); the
resource-group lookup instead raises on multiple matches as well as on
zero, and returns the single candidate only after a status check. -/
theorem claim6_amended (name rg_id tag_text region_id vpc_id zone_id : String)
    (tags_text sdt snap_region snap_rg : String)
    (g : ResourceGroup) (groups : List ResourceGroup)
    (v : Vpc) (vpcs : List Vpc)
    (vswitches : List VSwitchInfo) (w : VSwitchInfo)
    (excl : List (String × String))
    (sg : SecurityGroup) (sgs : List SecurityGroup)
    (snaps : List Snapshot) :
    (fetch_resource_group_id [] name =
      Except.error ("Resource group \"" ++ name ++ "\" cannot be found")) ∧
    (g.status = "OK" → fetch_resource_group_id [g] name = Except.ok g.id) ∧
    (1 < groups.length → fetch_resource_group_id groups name =
      Except.error ("Multiple resources matching the name \"" ++ name ++
        "\" were found")) ∧
    (describe_matched_vpc [] rg_id tag_text region_id =
      Except.error ("VPCs matching resource group ID " ++ rg_id ++ " and tag " ++
        tag_text ++ " under region ID " ++ region_id ++ " are not found")) ∧
    (describe_matched_vpc [v] rg_id tag_text region_id = Except.ok v) ∧
    (1 < vpcs.length → ∃ m ∈ vpcs,
      describe_matched_vpc vpcs rg_id tag_text region_id = Except.ok m ∧
      ∀ y ∈ vpcs, pyStrLt m.creation_time y.creation_time = false) ∧
    (vswitches.filter (fun x => x.zone_id == zone_id) ≠ [] →
      (vswitches.filter (fun x => x.zone_id == zone_id)).filter
          (fun x => !(vswitch_excluded excl x)) = [] →
      get_suitable_vswitch vswitches zone_id excl =
        Except.error ("No VSwitch matching the fetched VPC under zone ID " ++
          zone_id ++ " was found")) ∧
    ((vswitches.filter (fun x => x.zone_id == zone_id)).filter
        (fun x => !(vswitch_excluded excl x)) = [w] →
      get_suitable_vswitch vswitches zone_id excl = Except.ok w) ∧
    (1 < ((vswitches.filter (fun x => x.zone_id == zone_id)).filter
        (fun x => !(vswitch_excluded excl x))).length →
      ∃ m ∈ (vswitches.filter (fun x => x.zone_id == zone_id)).filter
          (fun x => !(vswitch_excluded excl x)),
        get_suitable_vswitch vswitches zone_id excl = Except.ok m ∧
        ∀ y ∈ (vswitches.filter (fun x => x.zone_id == zone_id)).filter
            (fun x => !(vswitch_excluded excl x)),
          pyStrLt m.creation_time y.creation_time = false) ∧
    (describe_security_group [] tag_text vpc_id region_id =
      Except.error ("Security groups matching tag " ++ tag_text ++
        " under VPC ID " ++ vpc_id ++ " and region ID " ++ region_id ++
        " are not found")) ∧
    (describe_security_group [sg] tag_text vpc_id region_id = Except.ok sg) ∧
    (1 < sgs.length → ∃ m ∈ sgs,
      describe_security_group sgs tag_text vpc_id region_id = Except.ok m ∧
      ∀ y ∈ sgs, pyStrLt m.creation_time y.creation_time = false) ∧
    (describe_latest_matched_snapshot [] tags_text sdt snap_region snap_rg =
      Except.error ("No snapshots matching tag " ++ tags_text ++
        " with source disk type " ++ pyQuote ++ sdt ++ pyQuote ++
        " under region ID " ++ snap_region ++ " and resource group ID " ++
        snap_rg ++ " are found")) ∧
    (snaps ≠ [] → ∃ m ∈ snaps,
      describe_latest_matched_snapshot snaps tags_text sdt snap_region snap_rg =
        Except.ok m ∧
      ∀ y ∈ snaps, pyStrLt m.creation_time y.creation_time = false) := by
  refine ⟨rfl, ?_, ?_, rfl, rfl, ?_, ?_, ?_, ?_, rfl, rfl, ?_, rfl, ?_⟩
  · intro hst
    unfold fetch_resource_group_id
    simp [hst]
  · intro hlen
    unfold fetch_resource_group_id
    rw [if_pos hlen]
  · intro hlen
    cases vpcs with
    | nil => simp at hlen
    | cons a t =>
      cases t with
      | nil => simp at hlen
      | cons b rest =>
        have hne : (a :: b :: rest) ≠ ([] : List Vpc) := by simp
        obtain ⟨hmem, hmax⟩ :=
          sortDescStable_headD_max (fun x => x.creation_time) (a :: b :: rest) hne
        exact ⟨_, hmem, rfl, hmax⟩
  · intro hinz hsuit
    have hie : (vswitches.filter (fun x => x.zone_id == zone_id)).isEmpty = false := by
      cases hem : vswitches.filter (fun x => x.zone_id == zone_id) with
      | nil => exact absurd hem hinz
      | cons _ _ => rfl
    unfold get_suitable_vswitch
    simp only [hie, Bool.false_eq_true, if_false]
    rw [hsuit]
  · intro hsuit
    have hinz : vswitches.filter (fun x => x.zone_id == zone_id) ≠ [] := by
      intro hnil
      rw [hnil] at hsuit
      simp at hsuit
    have hie : (vswitches.filter (fun x => x.zone_id == zone_id)).isEmpty = false := by
      cases hem : vswitches.filter (fun x => x.zone_id == zone_id) with
      | nil => exact absurd hem hinz
      | cons _ _ => rfl
    unfold get_suitable_vswitch
    simp only [hie, Bool.false_eq_true, if_false]
    rw [hsuit]
  · intro hlen
    cases hs : (vswitches.filter (fun x => x.zone_id == zone_id)).filter
        (fun x => !(vswitch_excluded excl x)) with
    | nil => rw [hs] at hlen; simp at hlen
    | cons a t =>
      cases t with
      | nil => rw [hs] at hlen; simp at hlen
      | cons b rest =>
        have hinz : vswitches.filter (fun x => x.zone_id == zone_id) ≠ [] := by
          intro hnil
          rw [hnil] at hs
          simp at hs
        have hie : (vswitches.filter (fun x => x.zone_id == zone_id)).isEmpty
            = false := by
          cases hem : vswitches.filter (fun x => x.zone_id == zone_id) with
          | nil => exact absurd hem hinz
          | cons _ _ => rfl
        have hne : (a :: b :: rest) ≠ ([] : List VSwitchInfo) := by simp
        obtain ⟨hmem, hmax⟩ :=
          sortDescStable_headD_max (fun x => x.creation_time) (a :: b :: rest) hne
        unfold get_suitable_vswitch
        simp only [hie, Bool.false_eq_true, if_false]
        rw [hs]
        exact ⟨_, hmem, rfl, hmax⟩
  · intro hlen
    cases sgs with
    | nil => simp at hlen
    | cons a t =>
      cases t with
      | nil => simp at hlen
      | cons b rest =>
        have hne : (a :: b :: rest) ≠ ([] : List SecurityGroup) := by simp
        obtain ⟨hmem, hmax⟩ :=
          sortDescStable_headD_max (fun x => x.creation_time) (a :: b :: rest) hne
        exact ⟨_, hmem, rfl, hmax⟩
  · intro hne
    cases snaps with
    | nil => exact absurd rfl hne
    | cons a rest =>
      have hne' : (a :: rest) ≠ ([] : List Snapshot) := by simp
      obtain ⟨hmem, hmax⟩ :=
        sortDescStable_headD_max (fun x => x.creation_time) (a :: rest) hne'
      exact ⟨_, hmem, rfl, hmax⟩

/-- C6 witness: single-candidate lookups return the candidate; two-candidate
lookups resolve to the more recently created one. -/
theorem claim6_witness :
    fetch_resource_group_id [rgA] "dev-resource-group" = Except.ok "rg-aaa" ∧
    (∃ m ∈ [vpcOld, vpcNew],
      describe_matched_vpc [vpcOld, vpcNew] "rg" "tag" "region" = Except.ok m ∧
      ∀ y ∈ [vpcOld, vpcNew], pyStrLt m.creation_time y.creation_time = false) ∧
    get_suitable_vswitch [vswPlain, vswTagged] "cn-hangzhou-a" exclTag =
      Except.ok vswPlain ∧
    (∃ m ∈ [sgOld, sgNew],
      describe_security_group [sgOld, sgNew] "t" "vpc" "r" = Except.ok m ∧
      ∀ y ∈ [sgOld, sgNew], pyStrLt m.creation_time y.creation_time = false) ∧
    (∃ m ∈ [snapOld, snapNew],
      describe_latest_matched_snapshot [snapOld, snapNew] "t" "data" "r" "rg" =
        Except.ok m ∧
      ∀ y ∈ [snapOld, snapNew], pyStrLt m.creation_time y.creation_time = false) :=
  ⟨(claim6_amended "dev-resource-group" "" "" "" "" "" "" "" "" "" rgA [] default []
      [] default [] default [] []).2.1 rfl,
   (claim6_amended "" "rg" "tag" "region" "" "" "" "" "" "" default [] default
      [vpcOld, vpcNew] [] default [] default [] []).2.2.2.2.2.1 (by decide),
   (claim6_amended "" "" "" "" "" "cn-hangzhou-a" "" "" "" "" default [] default []
      [vswPlain, vswTagged] vswPlain exclTag default [] []).2.2.2.2.2.2.2.1
     (by decide),
   (claim6_amended "" "" "t" "r" "vpc" "" "" "" "" "" default [] default [] []
      default [] default [sgOld, sgNew] []).2.2.2.2.2.2.2.2.2.2.2.1 (by decide),
   (claim6_amended "" "" "" "" "" "" "t" "data" "r" "rg" default [] default [] []
      default [] default [] [snapOld, snapNew]).2.2.2.2.2.2.2.2.2.2.2.2.2
     (by decide)⟩

/-- C1 counterexample: the first disk category is rejected with a
throttling error — not the disk-category-unsupported code — yet the worker
does not stop and record that error as the pair's result: it advances to
the second category and returns its accepted price. -/
theorem claim1_counterexample :
    (throttleErr.isClient = false ∧
      throttleErr.code ≠ "InvalidSystemDiskCategory.ValueNotSupported") ∧
    qThrottleThenOk "ecs.g7.large" "cn-hangzhou-a" "cloud_auto" =
      Except.error throttleErr ∧
    qThrottleThenOk "ecs.g7.large" "cn-hangzhou-a" "cloud_efficiency" =
      Except.ok ⟨some 1⟩ ∧
    describe_price_in_thread qThrottleThenOk itA "cn-hangzhou-a" =
      Sum.inr ⟨"ecs.g7.large", "cn-hangzhou-a", ⟨some 1⟩, itA⟩ ∧
    describe_price_in_thread qThrottleThenOk itA "cn-hangzhou-a" ≠
      Sum.inl throttleErr := by
  refine ⟨⟨rfl, by decide⟩, rfl, rfl, rfl, by decide⟩

/-- C1 (amended): the worker advances through the fixed disk-category list
on ANY rejection, not only the disk-category-unsupported one: the first
accepted price is returned, and when every category is rejected the LAST
rejection is recorded as the pair's result. -/
theorem claim1_amended (query : PriceQuery) (it : InstanceTypeInfo) (zid : String)
    (p : Price) (e₁ e₂ e₃ e₄ e₅ e₆ : PyException) :
    (query it.instance_type_id zid "cloud_auto" = Except.ok p →
      describe_price_in_thread query it zid =
        Sum.inr ⟨it.instance_type_id, zid, p, it⟩) ∧
    (query it.instance_type_id zid "cloud_auto" = Except.error e₁ →
      query it.instance_type_id zid "cloud_efficiency" = Except.ok p →
      describe_price_in_thread query it zid =
        Sum.inr ⟨it.instance_type_id, zid, p, it⟩) ∧
    (query it.instance_type_id zid "cloud_auto" = Except.error e₁ →
      query it.instance_type_id zid "cloud_efficiency" = Except.error e₂ →
      query it.instance_type_id zid "cloud_essd" = Except.error e₃ →
      query it.instance_type_id zid "cloud_essd_entry" = Except.error e₄ →
      query it.instance_type_id zid "cloud_ssd" = Except.error e₅ →
      query it.instance_type_id zid "ephemeral_ssd" = Except.error e₆ →
      describe_price_in_thread query it zid = Sum.inl e₆) := by
  unfold describe_price_in_thread system_disk_categories
  refine ⟨?_, ?_, ?_⟩
  · intro h₁
    simp only [describe_price_loop, h₁]
  · intro h₁ h₂
    simp only [describe_price_loop, h₁, h₂]
  · intro h₁ h₂ h₃ h₄ h₅ h₆
    simp only [describe_price_loop, h₁, h₂, h₃, h₄, h₅, h₆, Option.getD_some]

/-- C1 witness: the amended behaviour at two concrete pricing APIs — one
rejecting only the first category (with a non-expected error), one
rejecting every category. -/
theorem claim1_amended_witness :
    describe_price_in_thread qThrottleThenOk itA "cn-hangzhou-a" =
      Sum.inr ⟨"ecs.g7.large", "cn-hangzhou-a", ⟨some 1⟩, itA⟩ ∧
    describe_price_in_thread qAllDiskCat itA "cn-hangzhou-a" =
      Sum.inl diskCatErr :=
  ⟨(claim1_amended qThrottleThenOk itA "cn-hangzhou-a" ⟨some 1⟩ throttleErr
      throttleErr throttleErr throttleErr throttleErr throttleErr).2.1 rfl rfl,
   (claim1_amended qAllDiskCat itA "cn-hangzhou-a" ⟨some 1⟩ diskCatErr diskCatErr
      diskCatErr diskCatErr diskCatErr diskCatErr).2.2 rfl rfl rfl rfl rfl rfl⟩

/-- C2 (code bug): whenever the surviving price list is empty —
zero zone matches for a non-empty candidate list, or every pair rejected
with the disk-category-unsupported error — `batch_describe_price` does not
return an empty list: evaluating `prices[0]` inside the min/max debug log
raises `IndexError`. -/
theorem claim2_code_bug_eval :
    instance_type_zone_pairs [zoneB] [itA] = [] ∧
    batch_describe_price qAllDiskCat [zoneB] [itA] = Except.error indexErrorExc ∧
    raw_results qAllDiskCat [zoneA] [itA] = [Sum.inl diskCatErr] ∧
    surviving_exceptions qAllDiskCat [zoneA] [itA] = [] ∧
    batch_describe_price qAllDiskCat [zoneA] [itA] = Except.error indexErrorExc :=
  ⟨rfl, rfl, rfl, rfl, rfl⟩

/-- C3: after the disk-category-unsupported failures are filtered out,
exactly one surviving failure is raised as-is; two or more surviving
failures are raised as one combined exception whose message enumerates
each failure as "type name: message"; in both cases no quote list is
returned. -/
theorem claim3_failure_aggregation (query : PriceQuery) (zones : List AvailableZone)
    (its : List InstanceTypeInfo) (e : PyException) :
    (surviving_exceptions query zones its = [e] →
      batch_describe_price query zones its = Except.error e ∧
      ∀ out, batch_describe_price query zones its ≠ Except.ok out) ∧
    (2 ≤ (surviving_exceptions query zones its).length →
      batch_describe_price query zones its =
        Except.error (aggregate_exception (surviving_exceptions query zones its)) ∧
      (aggregate_exception (surviving_exceptions query zones its)).message =
        "Found " ++ toString (surviving_exceptions query zones its).length ++
          " instance prices with exceptions:\n" ++
          String.intercalate "\n" ((surviving_exceptions query zones its).map
            (fun x => x.typeName ++ ": " ++ x.message)) ∧
      ∀ out, batch_describe_price query zones its ≠ Except.ok out) := by
  constructor
  · intro h
    have hb : batch_describe_price query zones its = Except.error e := by
      unfold batch_describe_price
      rw [h]
    refine ⟨hb, ?_⟩
    intro out hout
    rw [hb] at hout
    exact Except.noConfusion hout
  · intro hlen
    cases hs : surviving_exceptions query zones its with
    | nil => rw [hs] at hlen; simp at hlen
    | cons a t =>
      cases t with
      | nil => rw [hs] at hlen; simp at hlen
      | cons b rest =>
        have hb : batch_describe_price query zones its =
            Except.error (aggregate_exception (a :: b :: rest)) := by
          unfold batch_describe_price
          rw [hs]
        refine ⟨hb, rfl, ?_⟩
        intro out hout
        rw [hb] at hout
        exact Except.noConfusion hout

/-- C3 witness: a run with exactly one surviving failure raises it as-is;
a run with two surviving failures raises the combined exception. -/
theorem claim3_witness :
    batch_describe_price qOneFailure [zoneA, zoneC] [itA] =
      Except.error throttleErr ∧
    batch_describe_price qTwoFailures [zoneA, zoneC] [itA] =
      Except.error (aggregate_exception [throttleErr, valueErr]) :=
  ⟨((claim3_failure_aggregation qOneFailure [zoneA, zoneC] [itA] throttleErr).1
      rfl).1,
   ((claim3_failure_aggregation qTwoFailures [zoneA, zoneC] [itA] throttleErr).2
      (by decide)).1⟩

/-- C4: every quote list `batch_describe_price` returns is sorted
ascending by the trade-price key, and quotes with equal trade prices keep
their relative arrival order (the per-key sublists of the output coincide
with those of the successful quotes in arrival order). -/
theorem claim4_sorted_stable (query : PriceQuery) (zones : List AvailableZone)
    (its : List InstanceTypeInfo) (out : List InstanceTypeZonePrice)
    (h : batch_describe_price query zones its = Except.ok out) :
    out.Pairwise (fun a b => priceKey a ≤ priceKey b) ∧
    ∀ v : Rat, out.filter (fun p => priceKey p == v) =
      (successful_quotes query zones its).filter (fun p => priceKey p == v) := by
  have hout := batch_ok_inv query zones its out h
  subst hout
  exact ⟨pairwise_sortByTradePrice _, fun v => filter_sortByTradePrice v _⟩

/-- C4 witness: a concrete two-zone run returns the cheaper quote first. -/
theorem claim4_witness :
    batch_describe_price qPricesOk [zoneA, zoneC] [itA] = Except.ok
      [⟨"ecs.g7.large", "cn-hangzhou-c", ⟨some 2⟩, itA⟩,
       ⟨"ecs.g7.large", "cn-hangzhou-a", ⟨some 3⟩, itA⟩] ∧
    List.Pairwise (fun a b => priceKey a ≤ priceKey b)
      [(⟨"ecs.g7.large", "cn-hangzhou-c", ⟨some 2⟩, itA⟩ : InstanceTypeZonePrice),
       ⟨"ecs.g7.large", "cn-hangzhou-a", ⟨some 3⟩, itA⟩] :=
  ⟨rfl, (claim4_sorted_stable qPricesOk [zoneA, zoneC] [itA] _ rfl).1⟩

/-- C5: every pair of the cross-join has its instance-type identifier in
the availability set of its zone; that set only lists identifiers whose
entry has status "Available"; and every quote a successful run returns
keeps this invariant. -/
theorem claim5_pairs_in_availability (query : PriceQuery) (zones : List AvailableZone)
    (its : List InstanceTypeInfo) (pr : InstanceTypeInfo × String)
    (out : List InstanceTypeZonePrice) (q : InstanceTypeZonePrice) :
    (pr ∈ instance_type_zone_pairs zones its →
      ∃ z ∈ zones, pr.2 = z.zone_id ∧
        pr.1.instance_type_id ∈ get_instance_types_available_in_zone z) ∧
    (∀ z : AvailableZone, ∀ s ∈ get_instance_types_available_in_zone z,
      ∃ r ∈ (z.available_resource.headD ⟨[]⟩).supported_resource,
        r.status = "Available" ∧ r.value = s) ∧
    (batch_describe_price query zones its = Except.ok out → q ∈ out →
      ∃ z ∈ zones, q.zone_id = z.zone_id ∧
        q.instance_type_id ∈ get_instance_types_available_in_zone z) := by
  refine ⟨pairs_availability zones its pr, ?_, ?_⟩
  · intro z s hs
    unfold get_instance_types_available_in_zone at hs
    rw [List.mem_map] at hs
    obtain ⟨r, hr, hrv⟩ := hs
    rw [List.mem_filter] at hr
    exact ⟨r, hr.1, by simpa using hr.2, hrv⟩
  · intro hok hq
    have hout := batch_ok_inv query zones its out hok
    rw [hout, mem_sortByTradePrice] at hq
    unfold successful_quotes at hq
    rw [List.mem_filterMap] at hq
    obtain ⟨r, hr, hrq⟩ := hq
    have hr' : r ∈ raw_results query zones its := (List.mem_filter.mp hr).1
    unfold raw_results at hr'
    rw [List.mem_map] at hr'
    obtain ⟨pair, hpair, hpr⟩ := hr'
    cases r with
    | inl e => exact absurd hrq (by simp)
    | inr q' =>
      have hq' : q' = q := by simpa using hrq
      subst hq'
      obtain ⟨hid, hzid⟩ :=
        describe_price_in_thread_inr query pair.1 pair.2 q' hpr
      obtain ⟨z, hz, hz2, hz3⟩ := pairs_availability zones its pair hpair
      exact ⟨z, hz, hzid ▸ hz2, hid ▸ hz3⟩

/-- C5 witness: at a concrete availability index, the cross-join pair and
the returned quote both lie in the zone's availability set. -/
theorem claim5_witness :
    ∃ z ∈ [zoneA, zoneC], (itA, "cn-hangzhou-a").2 = z.zone_id ∧
      (itA, "cn-hangzhou-a").1.instance_type_id ∈
        get_instance_types_available_in_zone z :=
  (claim5_pairs_in_availability qPricesOk [zoneA, zoneC] [itA]
    (itA, "cn-hangzhou-a") [] default).1 (by decide)

end AliyunDevServerCli
